import Mathlib

/-!
Verification of the Atlas rate limiter against its design document.

The development shallowly embeds the decision core of the repository:

* `tokenBucket` — the atomic Lua script `src/core/tokenBucket.lua`
  (lazy refill, consume, adaptive TTL, retry hint);
* `identifyClient` and `extractClientIP` — `src/utils/clientIdentifier.js`;
* `MetricsState` and its operations — `src/utils/metrics.js`;
* `rateLimiterInit` and `handleRequest` — `src/middleware/rateLimiter.js`
  (construction-time validation and the per-request decision flow).

Fractional token counts are modelled by `ℚ`, store timestamps by `ℤ`.
The in-process ban index (`metrics.isClientBanned`,
`metrics.getBanTimeRemaining`, ban installation) is called from the
middleware and mocked in the tests but absent from the sources; those
operations are modelled from the design document and marked as such.
-/

namespace Atlas

/-! ## Token-bucket script (src/core/tokenBucket.lua) -/

/-- The triple the Lua script returns: `{ allowed, math.floor(remaining),
now + time_until_refill }`. -/
structure ScriptReply where
  allowed : ℤ
  remaining : ℤ
  reset : ℤ
  deriving DecidableEq, Repr

/-- What the script writes back to the store: `HMSET` writes both fields,
`HSET` on denial writes only `last_refill`; `EXPIRE` sets the TTL. -/
structure BucketWrite where
  tokensWritten : Option ℚ
  lastRefillWritten : Option ℤ
  ttl : ℕ
  deriving DecidableEq, Repr

/-- Result of one execution of the script: the reply to the caller and
the writes performed on the stored bucket hash. -/
structure ScriptOutput where
  reply : ScriptReply
  write : BucketWrite
  deriving DecidableEq, Repr

/-- The lazily refilled token count: `math.min(capacity, tokens +
math.max(0, now - last_refill) * refill_rate)`, with a missing bucket
read as `tokens = capacity, last_refill = now`. -/
def refilledTokens (capacity refill_rate : ℚ) (now : ℤ) (bucket : Option (ℚ × ℤ)) : ℚ :=
  match bucket with
  | none => min capacity (capacity + ((max 0 (now - now) : ℤ) : ℚ) * refill_rate)
  | some (tokens, last_refill) =>
      min capacity (tokens + ((max 0 (now - last_refill) : ℤ) : ℚ) * refill_rate)

/-- Embedding of `src/core/tokenBucket.lua`.  `now` is the seconds value
of the store's `TIME`; `bucket` is the stored `(tokens, last_refill)`
hash, `none` when the key is absent. -/
def tokenBucket (capacity refill_rate cost : ℚ) (now : ℤ) (bucket : Option (ℚ × ℤ)) :
    ScriptOutput :=
  let tokens := refilledTokens capacity refill_rate now bucket
  if cost ≤ tokens then
    let tokens2 := tokens - cost
    let ttl : ℕ := if capacity * (1/2) < tokens2 then 7200 else 3600
    { reply := { allowed := 1, remaining := ⌊tokens2⌋, reset := now }
      write := { tokensWritten := some tokens2, lastRefillWritten := some now, ttl := ttl } }
  else
    { reply := { allowed := 0, remaining := ⌊tokens⌋,
                 reset := now + ⌈(cost - tokens) / refill_rate⌉ }
      write := { tokensWritten := none, lastRefillWritten := some now, ttl := 3600 } }

/-! ## String helpers

Executable models of the JavaScript string operations the identifier
uses (`split`, `trim`, `String.prototype.replace` with a string pattern,
which replaces only the first occurrence). -/

/-- Split a character list at every occurrence of the separator. -/
def splitOnChar (sep : Char) (cs : List Char) : List (List Char) :=
  cs.foldr
    (fun c acc =>
      match acc with
      | [] => [[c]]
      | h :: t => if c = sep then [] :: h :: t else (c :: h) :: t)
    [[]]

/-- Split a string on a separator character, as `"s".split(sep)` does. -/
def jsSplit (s : String) (sep : Char) : List String :=
  (splitOnChar sep s.data).map String.mk

/-- The whitespace characters removed by `String.prototype.trim` that can
occur in header values. -/
def isJsSpace (c : Char) : Bool :=
  c = ' ' || c = '\t' || c = '\n' || c = '\r'

/-- `"s".trim()`. -/
def jsTrim (s : String) : String :=
  String.mk (((s.data.dropWhile isJsSpace).reverse.dropWhile isJsSpace).reverse)

/-- Does `cs` start with `pat`? -/
def listStartsWith (pat cs : List Char) : Bool :=
  match pat, cs with
  | [], _ => true
  | _ :: _, [] => false
  | p :: ps, c :: rest => p = c && listStartsWith ps rest

/-- Remove the first occurrence of `pat` from `cs`, leaving the rest
untouched — the semantics of `"s".replace(pat, "")` with a string
pattern. -/
def removeFirstOcc (pat : List Char) : List Char → List Char
  | [] => []
  | c :: rest =>
      if listStartsWith pat (c :: rest) then (c :: rest).drop pat.length
      else c :: removeFirstOcc pat rest

/-! ## SHA-256

`src/utils/clientIdentifier.js` hashes presented API keys with
`crypto.createHash('sha256').update(key).digest('hex')`.  The hash is
embedded concretely: 32-bit words are natural numbers reduced modulo
`2 ^ 32`. -/

/-- Truncate to a 32-bit word. -/
def mod32 (n : ℕ) : ℕ := n % 2 ^ 32

/-- Rotate a 32-bit word right by `n` places. -/
def rotr32 (n x : ℕ) : ℕ := mod32 ((x >>> n) ||| (x <<< (32 - n)))

/-- Bitwise complement of a 32-bit word. -/
def not32 (x : ℕ) : ℕ := x ^^^ (2 ^ 32 - 1)

/-- The 64 round constants of FIPS 180-4, in decimal. -/
def sha256K : List ℕ :=
  [1116352408, 1899447441, 3049323471, 3921009573, 961987163,
   1508970993, 2453635748, 2870763221, 3624381080, 310598401,
   607225278, 1426881987, 1925078388, 2162078206, 2614888103,
   3248222580, 3835390401, 4022224774, 264347078, 604807628,
   770255983, 1249150122, 1555081692, 1996064986, 2554220882,
   2821834349, 2952996808, 3210313671, 3336571891, 3584528711,
   113926993, 338241895, 666307205, 773529912, 1294757372,
   1396182291, 1695183700, 1986661051, 2177026350, 2456956037,
   2730485921, 2820302411, 3259730800, 3345764771, 3516065817,
   3600352804, 4094571909, 275423344, 430227734, 506948616,
   659060556, 883997877, 958139571, 1322822218, 1537002063,
   1747873779, 1955562222, 2024104815, 2227730452, 2361852424,
   2428436474, 2756734187, 3204031479, 3329325298]

/-- The initial chaining words of FIPS 180-4, in decimal. -/
def sha256H0 : List ℕ :=
  [1779033703, 3144134277, 1013904242, 2773480762,
   1359893119, 2600822924, 528734635, 1541459225]

/-- UTF-8 encoding of one code point. -/
def charUtf8 (n : ℕ) : List ℕ :=
  if n < 0x80 then [n]
  else if n < 0x800 then [0xc0 + n / 64, 0x80 + n % 64]
  else if n < 0x10000 then
    [0xe0 + n / 4096, 0x80 + n / 64 % 64, 0x80 + n % 64]
  else
    [0xf0 + n / 262144, 0x80 + n / 4096 % 64, 0x80 + n / 64 % 64, 0x80 + n % 64]

/-- UTF-8 bytes of a string, the input `update` hashes. -/
def strBytes (s : String) : List ℕ :=
  s.data.foldr (fun c acc => charUtf8 c.toNat ++ acc) []

/-- SHA-256 padding: append `0x80`, zero bytes up to 56 mod 64, then the
bit length as an 8-byte big-endian integer. -/
def sha256Pad (msg : List ℕ) : List ℕ :=
  let len := msg.length
  let zeros := (64 + 56 - (len + 1) % 64) % 64
  let bitLen := 8 * len
  msg ++ [0x80] ++ List.replicate zeros 0 ++
    (List.range 8).map (fun i => bitLen >>> (8 * (7 - i)) % 256)

/-- Pack bytes into big-endian 32-bit words. -/
def bytesToWords : List ℕ → List ℕ
  | b1 :: b2 :: b3 :: b4 :: rest => (((b1 * 256 + b2) * 256 + b3) * 256 + b4) :: bytesToWords rest
  | _ => []

/-- Group a list into chunks of `n`, driven by explicit fuel so that the
recursion is structural. -/
def chunksAux (n : ℕ) : ℕ → List α → List (List α)
  | 0, _ => []
  | _, [] => []
  | fuel + 1, l => l.take n :: chunksAux n fuel (l.drop n)

/-- Group a list into chunks of `n` elements. -/
def chunks (n : ℕ) (l : List α) : List (List α) :=
  chunksAux n l.length l

/-- The 64-word message schedule of one 16-word block. -/
def msgSchedule (block : List ℕ) : List ℕ :=
  (List.range 64).foldl
    (fun ws i =>
      if i < 16 then ws ++ [block.getD i 0]
      else
        let w15 := ws.getD (i - 15) 0
        let w2 := ws.getD (i - 2) 0
        let s0 := rotr32 7 w15 ^^^ rotr32 18 w15 ^^^ (w15 >>> 3)
        let s1 := rotr32 17 w2 ^^^ rotr32 19 w2 ^^^ (w2 >>> 10)
        ws ++ [mod32 (ws.getD (i - 16) 0 + s0 + ws.getD (i - 7) 0 + s1)])
    []

/-- The SHA-256 compression function applied to one block. -/
def compressBlock (h : List ℕ) (block : List ℕ) : List ℕ :=
  let ws := msgSchedule block
  let final :=
    (List.range 64).foldl
      (fun st i =>
        let a := st.getD 0 0
        let b := st.getD 1 0
        let c := st.getD 2 0
        let d := st.getD 3 0
        let e := st.getD 4 0
        let f := st.getD 5 0
        let g := st.getD 6 0
        let hh := st.getD 7 0
        let s1 := rotr32 6 e ^^^ rotr32 11 e ^^^ rotr32 25 e
        let ch := (e &&& f) ^^^ (not32 e &&& g)
        let temp1 := mod32 (hh + s1 + ch + sha256K.getD i 0 + ws.getD i 0)
        let s0 := rotr32 2 a ^^^ rotr32 13 a ^^^ rotr32 22 a
        let maj := (c &&& b) ^^^ (c &&& a) ^^^ (b &&& a)
        let temp2 := mod32 (s0 + maj)
        [mod32 (temp1 + temp2), a, b, c, mod32 (d + temp1), e, f, g])
      h
  List.zipWith (fun x y => mod32 (x + y)) h final

/-- The eight 32-bit words of the SHA-256 digest of a string. -/
def sha256Words (s : String) : List ℕ :=
  (chunks 16 (bytesToWords (sha256Pad (strBytes s)))).foldl compressBlock sha256H0

/-- One lowercase hex digit. -/
def hexDigit (n : ℕ) : Char :=
  if n < 10 then Char.ofNat (48 + n) else Char.ofNat (87 + n)

/-- A 32-bit word as eight lowercase hex digits. -/
def wordHex (n : ℕ) : String :=
  String.mk ((List.range 8).map (fun i => hexDigit (n >>> (28 - 4 * i) &&& 15)))

/-- `crypto.createHash('sha256').update(s).digest('hex')`. -/
def sha256hex (s : String) : String :=
  String.join ((sha256Words s).map wordHex)

/-! ## Client identification (src/utils/clientIdentifier.js) -/

/-- The authenticated subject a prior auth middleware may have attached
as `req.user`; `id` is its `id` property. -/
structure ReqUser where
  id : Option String
  deriving DecidableEq, Repr

/-- The slice of an Express request the identifier reads: the
`x-api-key`, `x-forwarded-for` and `x-real-ip` headers, the `api_key`
query parameter, `req.user`, and the connection addresses `req.ip`,
`req.connection.remoteAddress`, `req.socket.remoteAddress`.  A missing
header or property is `none`; JavaScript truthiness makes the empty
string behave like a missing value. -/
structure Request where
  headerApiKey : Option String := none
  queryApiKey : Option String := none
  headerForwardedFor : Option String := none
  headerRealIP : Option String := none
  user : Option ReqUser := none
  ip : Option String := none
  connectionRemoteAddress : Option String := none
  socketRemoteAddress : Option String := none
  deriving DecidableEq, Repr

/-- Truthiness of an optional string: present and non-empty. -/
def truthyStr : Option String → Bool
  | some s => s ≠ ""
  | none => false

/-- `req.headers['x-api-key'] || req.query.api_key`, then the `if
(apiKey)` truthiness guard. -/
def apiKeyOf (req : Request) : Option String :=
  let v := if truthyStr req.headerApiKey then req.headerApiKey else req.queryApiKey
  if truthyStr v then v else none

/-- The `req.user && req.user.id` guard: the id of the authenticated
subject when present and truthy. -/
def userIdOf (req : Request) : Option String :=
  match req.user with
  | some u => if truthyStr u.id then u.id else none
  | none => none

/-- `hashApiKey`: SHA-256 hex digest truncated to its first 16
characters. -/
def hashApiKey (apiKey : String) : String :=
  (sha256hex apiKey).take 16

/-- The `isValidIP` IPv4 test `^(\d\x7b1,3\x7d\.)\x7b3\x7d\d\x7b1,3\x7d$`:
four dot-separated runs of one to three digits. -/
def isIPv4 (s : String) : Bool :=
  let ps := jsSplit s '.'
  ps.length = 4 && ps.all (fun p => 1 ≤ p.length && p.length ≤ 3 && p.data.all Char.isDigit)

/-- Hex digit as accepted by the `isValidIP` IPv6 pattern. -/
def isHexChar (c : Char) : Bool :=
  c.isDigit || ('a' ≤ c && c ≤ 'f') || ('A' ≤ c && c ≤ 'F')

/-- The `isValidIP` IPv6 test
`^([0-9a-fA-F]\x7b0,4\x7d:)\x7b2,7\x7d[0-9a-fA-F]\x7b0,4\x7d$`: three to
eight colon-separated runs of at most four hex digits. -/
def isIPv6 (s : String) : Bool :=
  let ps := jsSplit s ':'
  3 ≤ ps.length && ps.length ≤ 8 && ps.all (fun p => p.length ≤ 4 && p.data.all isHexChar)

/-- `isValidIP`: the early falsy return, then the IPv4 or IPv6 regex. -/
def isValidIP (ip : String) : Bool :=
  if ip = "" then false else isIPv4 ip || isIPv6 ip

/-- `sanitizeIP`: falsy addresses become `"unknown"`, and the first
IPv4-mapped-IPv6 prefix `::ffff:` is stripped. -/
def sanitizeIP (ip : String) : String :=
  if ip = "" then "unknown" else String.mk (removeFirstOcc "::ffff:".data ip.data)

/-- First truthy value of a chain of `||`-ed optional strings, with a
final default. -/
def firstTruthy (dflt : String) : List (Option String) → String
  | [] => dflt
  | v :: rest => if truthyStr v then v.getD "" else firstTruthy dflt rest

/-- Embedding of `extractClientIP`: the first entry of a truthy
`x-forwarded-for` when it validates, else a valid truthy `x-real-ip`,
else the sanitized direct connection address. -/
def extractClientIP (req : Request) : String :=
  let fromForwarded : Option String :=
    if truthyStr req.headerForwardedFor then
      let ips := (jsSplit (req.headerForwardedFor.getD "") ',').map jsTrim
      let clientIP := ips.getD 0 ""
      if isValidIP clientIP then some clientIP else none
    else none
  match fromForwarded with
  | some a => a
  | none =>
      if truthyStr req.headerRealIP && isValidIP (req.headerRealIP.getD "") then
        req.headerRealIP.getD ""
      else
        sanitizeIP (firstTruthy "unknown"
          [req.ip, req.connectionRemoteAddress, req.socketRemoteAddress])

/-- Embedding of `identifyClient`: API key first, then authenticated
user id, then client address. -/
def identifyClient (req : Request) : String :=
  match apiKeyOf req with
  | some apiKey => "apikey:" ++ hashApiKey apiKey
  | none =>
      match userIdOf req with
      | some uid => "user:" ++ uid
      | none => "ip:" ++ extractClientIP req

/-! ## Metrics and abuse state (src/utils/metrics.js) -/

/-- One entry of `violationTracker`: a denial count and the wall-clock
millisecond timestamp of the first denial of the window. -/
structure ViolationRecord where
  count : ℕ
  firstViolation : ℤ
  deriving DecidableEq, Repr

/-- `MALICIOUS_THRESHOLD`: denials inside one window that flag a client
as malicious. -/
def MALICIOUS_THRESHOLD : ℕ := 10

/-- `VIOLATION_WINDOW_MS`: the sliding violation window, in ms. -/
def VIOLATION_WINDOW_MS : ℤ := 60000

/-- `maxHistorySize`: length bound of the latency buffer. -/
def maxHistorySize : ℕ := 1000

/-- Ban duration, in ms.  Modelled from the spec: default ban duration
`B = 600 s`; the constant appears nowhere in the sources because the ban
index itself is missing from them. -/
def banDurationMs : ℤ := 600000

/-- The process-wide `PrometheusMetrics` singleton state.  Sets are
modelled as duplicate-free lists, `Map`s as association lists.  The
`bans` field is modelled from the spec (§3 ban record: `expires_at_ms`
per principal): the middleware calls `metrics.isClientBanned` and
`metrics.getBanTimeRemaining` and the unit tests mock them, but no
implementation of the ban index exists under the sources. -/
structure MetricsState where
  requestsAllowed : ℕ := 0
  requestsBlocked : ℕ := 0
  redisErrors : ℕ := 0
  failOpenEvents : ℕ := 0
  blockedStandard : ℕ := 0
  blockedMalicious : ℕ := 0
  threatsNeutralized : ℕ := 0
  activeClients : List String := []
  maliciousClients : List String := []
  responseTimesMs : List ℚ := []
  violationTracker : List (String × ViolationRecord) := []
  bans : List (String × ℤ) := []
  deriving DecidableEq, Repr

/-- The state of a fresh `PrometheusMetrics` instance. -/
def initialMetrics : MetricsState := {}

/-- `Set.prototype.add` on a duplicate-free list. -/
def setInsert (s : List String) (x : String) : List String :=
  if x ∈ s then s else x :: s

/-- `Map.prototype.set` on an association list: replace or add the
entry. -/
def mapSet (m : List (String × α)) (k : String) (v : α) : List (String × α) :=
  if (m.lookup k).isSome then m.map (fun e => if e.1 = k then (k, v) else e)
  else (k, v) :: m

/-- `incrementAllowed`. -/
def incrementAllowed (M : MetricsState) : MetricsState :=
  { M with requestsAllowed := M.requestsAllowed + 1 }

/-- `incrementBlocked(clientId, isMalicious)`. -/
def incrementBlocked (M : MetricsState) (clientId : Option String) (isMalicious : Bool) :
    MetricsState :=
  let M1 := { M with requestsBlocked := M.requestsBlocked + 1 }
  if isMalicious then
    let M2 := { M1 with
      blockedMalicious := M1.blockedMalicious + 1
      threatsNeutralized := M1.threatsNeutralized + 1 }
    match clientId with
    | some cid => { M2 with maliciousClients := setInsert M2.maliciousClients cid }
    | none => M2
  else
    { M1 with blockedStandard := M1.blockedStandard + 1 }

/-- `trackViolation(clientId)`: returns the `true`/`false` verdict
together with the updated state; `now` is `Date.now()`. -/
def trackViolation (M : MetricsState) (clientId : String) (now : ℤ) :
    Bool × MetricsState :=
  match M.violationTracker.lookup clientId with
  | some existing =>
      if now - existing.firstViolation < VIOLATION_WINDOW_MS then
        let newCount := existing.count + 1
        let M1 := { M with violationTracker :=
          (mapSet M.violationTracker clientId { existing with count := newCount }) }
        if MALICIOUS_THRESHOLD ≤ newCount then
          (true, { M1 with maliciousClients := setInsert M1.maliciousClients clientId })
        else
          (false, M1)
      else
        (false, { M with violationTracker :=
          (mapSet M.violationTracker clientId { count := 1, firstViolation := now }) })
  | none =>
      (false, { M with violationTracker :=
        (mapSet M.violationTracker clientId { count := 1, firstViolation := now }) })

/-- `incrementRedisError`. -/
def incrementRedisError (M : MetricsState) : MetricsState :=
  { M with redisErrors := M.redisErrors + 1 }

/-- `incrementFailOpen`. -/
def incrementFailOpen (M : MetricsState) : MetricsState :=
  { M with failOpenEvents := M.failOpenEvents + 1 }

/-- `recordResponseTime(timeMs)`: push, dropping the oldest entry past
`maxHistorySize`. -/
def recordResponseTime (M : MetricsState) (timeMs : ℚ) : MetricsState :=
  let l := M.responseTimesMs ++ [timeMs]
  { M with responseTimesMs := if maxHistorySize < l.length then l.drop 1 else l }

/-- `trackClient(clientId)`. -/
def trackClient (M : MetricsState) (clientId : String) : MetricsState :=
  { M with activeClients := setInsert M.activeClients clientId }

/-- `cleanupViolationTracker()`: delete the violation records whose
first violation is older than twice the window. -/
def cleanupViolationTracker (M : MetricsState) (now : ℤ) : MetricsState :=
  { M with violationTracker :=
      M.violationTracker.filter (fun e => ¬ VIOLATION_WINDOW_MS * 2 < now - e.2.firstViolation) }

/-- `reset()` (test-only): clear every counter and collection. -/
def resetMetrics (_M : MetricsState) : MetricsState := {}

/-- `getSystemHealthScore()`: 100 with no decided traffic, else
`100 - (redis_errors + fail_open_events) / total * 100` clamped to
`[0, 100]`. -/
def getSystemHealthScore (M : MetricsState) : ℚ :=
  let totalRequests : ℕ := M.requestsAllowed + M.requestsBlocked
  if totalRequests = 0 then 100
  else
    let errorEvents : ℕ := M.redisErrors + M.failOpenEvents
    max 0 (min 100 (100 - (errorEvents : ℚ) / (totalRequests : ℚ) * 100))

/-- `getProtectionRate()`: blocked share of decided traffic. -/
def getProtectionRate (M : MetricsState) : ℚ :=
  let totalRequests : ℕ := M.requestsAllowed + M.requestsBlocked
  if totalRequests = 0 then 0
  else (M.requestsBlocked : ℚ) / (totalRequests : ℚ) * 100

/-- Modelled from the spec: `is_banned(principal)` of the missing ban
index — banned while the wall clock is strictly before `expires_at_ms`
(§4.2, boundary: a request arriving at `expires_at` is admitted). -/
def isClientBanned (M : MetricsState) (clientId : String) (nowMs : ℤ) : Bool :=
  match M.bans.lookup clientId with
  | some expiresAt => nowMs < expiresAt
  | none => false

/-- Modelled from the spec: the seconds remaining on a principal's ban,
reported by `Retry-After` and `X-Ban-Remaining` (§4.2, §4.7). -/
def getBanTimeRemaining (M : MetricsState) (clientId : String) (nowMs : ℤ) : ℤ :=
  match M.bans.lookup clientId with
  | some expiresAt => ⌈((expiresAt - nowMs : ℤ) : ℚ) / 1000⌉
  | none => 0

/-- Modelled from the spec: installing a ban record `expires_at_ms =
now + B` when the violation tracker escalates (§4.4). -/
def installBan (M : MetricsState) (clientId : String) (expiresAtMs : ℤ) : MetricsState :=
  { M with bans := mapSet M.bans clientId expiresAtMs }

/-! ## Middleware construction (src/middleware/rateLimiter.js, FIX-003) -/

/-- JavaScript values an `options` override can hold.  Finite numbers
carry a rational; `nan`, `posInf` and `negInf` are the remaining
`number`-typed values. -/
inductive JSVal where
  | num (q : ℚ)
  | nan
  | posInf
  | negInf
  | str (s : String)
  | boolean (b : Bool)
  | nullv
  deriving DecidableEq, Repr

/-- JavaScript truthiness. -/
def JSVal.truthy : JSVal → Bool
  | .num q => q ≠ 0
  | .nan => false
  | .posInf => true
  | .negInf => true
  | .str s => s ≠ ""
  | .boolean b => b
  | .nullv => false

/-- `typeof v === 'number'`. -/
def JSVal.isNumberType : JSVal → Bool
  | .num _ => true
  | .nan => true
  | .posInf => true
  | .negInf => true
  | _ => false

/-- `Number.isFinite(v)`. -/
def JSVal.isFiniteNum : JSVal → Bool
  | .num _ => true
  | _ => false

/-- The comparison `v <= 0`; reached only for `number`-typed values,
where NaN compares false. -/
def JSVal.leZero : JSVal → Bool
  | .num q => q ≤ 0
  | .negInf => true
  | _ => false

/-- The comparison `a < b`; reached only for validated finite numbers. -/
def JSVal.jsLt : JSVal → JSVal → Bool
  | .num a, .num b => a < b
  | _, _ => false

/-- The finite numeric value of a validated override. -/
def JSVal.toRat : JSVal → ℚ
  | .num q => q
  | _ => 0

/-- The guard
`typeof v !== 'number' || v <= 0 || !Number.isFinite(v)`
each of the three settings is checked against. -/
def invalidSetting (v : JSVal) : Bool :=
  !v.isNumberType || v.leZero || !v.isFiniteNum

/-- The `options` object passed to `rateLimiter(options)`: a missing
property is `none`, a present property carries a `JSVal`. -/
structure RateLimiterOptions where
  capacity : Option JSVal := none
  refillRate : Option JSVal := none
  cost : Option JSVal := none
  deriving DecidableEq, Repr

/-- `options.x || config.rateLimit.x`: a missing or falsy override is
replaced by the config default. -/
def jsOr (override : Option JSVal) (dflt : ℚ) : JSVal :=
  match override with
  | some v => if v.truthy then v else .num dflt
  | none => .num dflt

/-- Embedding of the construction-time body of `rateLimiter(options)`:
the three strict-validation guards and the `capacity < cost` check,
throwing `Error` in order, else the effective `(capacity, refillRate,
cost)`.  The config defaults are parameters. -/
def rateLimiterInit (options : RateLimiterOptions) (capDflt rateDflt costDflt : ℚ) :
    Except String (ℚ × ℚ × ℚ) :=
  let capacity := jsOr options.capacity capDflt
  let refillRate := jsOr options.refillRate rateDflt
  let cost := jsOr options.cost costDflt
  if invalidSetting capacity then .error "Invalid capacity. Must be positive number."
  else if invalidSetting refillRate then .error "Invalid refillRate. Must be positive number."
  else if invalidSetting cost then .error "Invalid cost. Must be positive number."
  else if capacity.jsLt cost then .error "Capacity must be >= cost"
  else .ok (capacity.toRat, refillRate.toRat, cost.toRat)

/-! ## Request handling (src/middleware/rateLimiter.js, request body) -/

/-- What the store does for this request: `unavailable` models
`getRedisClient()` returning null; `throws` models any exception raised
while the middleware body runs (connection error, 2 s command timeout,
script error, unexpected exception); `replies` is the script's result
triple. -/
inductive StoreBehavior where
  | unavailable
  | throws
  | replies (allowed remaining reset : ℤ)
  deriving DecidableEq, Repr

/-- Calls the middleware makes into the logger, in order. -/
inductive LogCall where
  | warnEvent (eventType : String)
  | errorEvent (eventType : String)
  | auditAllow (clientId : String) (remaining : ℤ)
  | auditBlock (clientId : String) (remaining : ℤ) (isMalicious : Bool)
  deriving DecidableEq, Repr

/-- The externally visible outcome of one request: status (200 stands
for `next()` being reached), the emitted headers, the JSON body fields
the claims mention, and the logger calls. -/
structure Response where
  status : ℕ := 200
  nextCalled : Bool := false
  storeConsulted : Bool := false
  xRateLimitLimit : Option ℚ := none
  xRateLimitRemaining : Option ℤ := none
  xRateLimitReset : Option ℤ := none
  retryAfter : Option ℤ := none
  xBanRemaining : Option ℤ := none
  xThreatLevel : Option String := none
  bodyBanned : Option Bool := none
  bodyRemaining : Option ℤ := none
  bodyRetryAfterSeconds : Option ℤ := none
  events : List LogCall := []
  deriving DecidableEq, Repr

/-- Embedding of the per-request middleware body for a validated
configuration: identify (the caller passes the computed principal),
track, ban gate, fail-open on a missing client, the script round trip,
decision bookkeeping and response shaping, with the `catch` block
modelled by `StoreBehavior.throws`.  `nowMs` is `Date.now()` at the
decision point and `elapsedMs` the measured middleware latency. -/
def handleRequest (capacity : ℚ) (clientId : String) (nowMs : ℤ) (elapsedMs : ℚ)
    (store : StoreBehavior) (M : MetricsState) : Response × MetricsState :=
  let M1 := trackClient M clientId
  if isClientBanned M1 clientId nowMs then
    let banTimeRemaining := getBanTimeRemaining M1 clientId nowMs
    let M2 := recordResponseTime (incrementBlocked M1 (some clientId) true) elapsedMs
    ({ status := 429
       nextCalled := false
       storeConsulted := false
       xRateLimitLimit := some capacity
       xRateLimitRemaining := some 0
       retryAfter := some banTimeRemaining
       xBanRemaining := some banTimeRemaining
       xThreatLevel := some "BANNED"
       bodyBanned := some true
       bodyRemaining := some 0
       bodyRetryAfterSeconds := some banTimeRemaining
       events := [.auditBlock clientId 0 true] }, M2)
  else
    match store with
    | .unavailable =>
        ({ status := 200
           nextCalled := true
           storeConsulted := false
           events := [.warnEvent "rate_limit_fail_open"] }, incrementFailOpen M1)
    | .throws =>
        ({ status := 200
           nextCalled := true
           storeConsulted := true
           events := [.errorEvent "rate_limit_error"] }, incrementRedisError M1)
    | .replies allowed remaining reset =>
        if allowed = 1 then
          ({ status := 200
             nextCalled := true
             storeConsulted := true
             xRateLimitLimit := some capacity
             xRateLimitRemaining := some remaining
             xRateLimitReset := some reset
             events := [.auditAllow clientId remaining] },
           recordResponseTime (incrementAllowed M1) elapsedMs)
        else
          let tv := trackViolation M1 clientId nowMs
          let shouldBan := tv.1
          let M2 :=
            if shouldBan then installBan tv.2 clientId (nowMs + banDurationMs) else tv.2
          let isBanned := shouldBan || isClientBanned M2 clientId nowMs
          let M3 := recordResponseTime (incrementBlocked M2 (some clientId) isBanned) elapsedMs
          let nowS : ℤ := ⌊(nowMs : ℚ) / 1000⌋
          let retryAfter :=
            if shouldBan then getBanTimeRemaining M2 clientId nowMs
            else max 0 (reset - nowS)
          ({ status := 429
             nextCalled := false
             storeConsulted := true
             xRateLimitLimit := some capacity
             xRateLimitRemaining := some remaining
             xRateLimitReset := some reset
             retryAfter := some retryAfter
             xBanRemaining := if shouldBan then some retryAfter else none
             xThreatLevel := if isBanned then some "BANNED" else none
             bodyBanned := some isBanned
             bodyRemaining := some 0
             bodyRetryAfterSeconds := some retryAfter
             events := [.auditBlock clientId remaining isBanned] }, M3)

/-- A sequence of requests run against the middleware, threading the
metrics singleton; each step is a principal, an arrival time and a store
behavior. -/
def runRequests (capacity : ℚ) (steps : List (String × ℤ × StoreBehavior))
    (M : MetricsState) : MetricsState :=
  steps.foldl (fun acc s => (handleRequest capacity s.1 s.2.1 0 s.2.2 acc).2) M

/-- The mutating operations `src/utils/metrics.js` exposes on the
singleton, as one alphabet of events. -/
inductive MetricsOp where
  | incAllowed
  | incBlocked (clientId : Option String) (isMalicious : Bool)
  | trackViol (clientId : String) (now : ℤ)
  | incRedisError
  | incFailOpen
  | recordTime (timeMs : ℚ)
  | trackCl (clientId : String)
  | cleanup (now : ℤ)
  | resetOp
  deriving DecidableEq, Repr

/-- Apply one metrics operation to the singleton state. -/
def applyOp : MetricsOp → MetricsState → MetricsState
  | .incAllowed, M => incrementAllowed M
  | .incBlocked cid mal, M => incrementBlocked M cid mal
  | .trackViol cid now, M => (trackViolation M cid now).2
  | .incRedisError, M => incrementRedisError M
  | .incFailOpen, M => incrementFailOpen M
  | .recordTime t, M => recordResponseTime M t
  | .trackCl cid, M => trackClient M cid
  | .cleanup now, M => cleanupViolationTracker M now
  | .resetOp, M => resetMetrics M

/-! ## Theorems -/

/-- The refilled token count never exceeds the capacity. -/
theorem refilledTokens_le_capacity (capacity refill_rate : ℚ) (now : ℤ)
    (bucket : Option (ℚ × ℤ)) :
    refilledTokens capacity refill_rate now bucket ≤ capacity := by
  unfold refilledTokens
  cases bucket with
  | none => exact min_le_left _ _
  | some p => exact min_le_left _ _

/-- C4: when the refilled token count is below the cost, the script
persists only `last_refill`, sets the TTL to 3600 s and returns
`(0, floor(tokens), now + ceil((cost - tokens) / refill_rate))`. -/
theorem tokenBucket_denial (capacity refill_rate cost : ℚ) (now : ℤ)
    (bucket : Option (ℚ × ℤ))
    (_hcap : 0 < capacity) (_hrate : 0 < refill_rate) (_hcost : 0 < cost)
    (hlt : refilledTokens capacity refill_rate now bucket < cost) :
    tokenBucket capacity refill_rate cost now bucket =
      { reply := { allowed := 0
                   remaining := ⌊refilledTokens capacity refill_rate now bucket⌋
                   reset := now +
                     ⌈(cost - refilledTokens capacity refill_rate now bucket) / refill_rate⌉ }
        write := { tokensWritten := none, lastRefillWritten := some now, ttl := 3600 } } := by
  unfold tokenBucket
  rw [if_neg (not_le.mpr hlt)]

/-- The refilled token count of the C4/C5 witness bucket. -/
theorem refilledTokens_witness_eval : refilledTokens 5 1 100 (some (0, 100)) = 0 := by
  unfold refilledTokens
  norm_num

/-- Witness for C4 at `capacity = 5`, `refill_rate = 1`, `cost = 1`,
`now = 100`, stored bucket `(0, 100)`. -/
theorem tokenBucket_denial_witness :
    (0 : ℚ) < 5 ∧ refilledTokens 5 1 100 (some (0, 100)) < 1 ∧
    tokenBucket 5 1 1 100 (some (0, 100)) =
      { reply := { allowed := 0
                   remaining := ⌊refilledTokens 5 1 100 (some (0, 100))⌋
                   reset := 100 + ⌈(1 - refilledTokens 5 1 100 (some (0, 100))) / 1⌉ }
        write := { tokensWritten := none, lastRefillWritten := some 100, ttl := 3600 } } :=
  ⟨by norm_num, by rw [refilledTokens_witness_eval]; norm_num,
   tokenBucket_denial 5 1 1 100 (some (0, 100)) (by norm_num) (by norm_num) (by norm_num)
     (by rw [refilledTokens_witness_eval]; norm_num)⟩

/-- C5: under a valid configuration and a well-formed (or absent) stored
bucket, every token value the script writes back lies in
`[0, capacity]`, and the `last_refill` it writes is the store clock of
the operation. -/
theorem tokenBucket_invariant (capacity refill_rate cost : ℚ) (now : ℤ)
    (bucket : Option (ℚ × ℤ))
    (_hcap : 0 < capacity) (_hrate : 0 < refill_rate) (hcost : 0 < cost) (_hcc : cost ≤ capacity)
    (_hbucket : ∀ t lr, bucket = some (t, lr) → 0 ≤ t ∧ t ≤ capacity) :
    (∀ t, (tokenBucket capacity refill_rate cost now bucket).write.tokensWritten = some t →
      0 ≤ t ∧ t ≤ capacity) ∧
    (tokenBucket capacity refill_rate cost now bucket).write.lastRefillWritten = some now := by
  have hle := refilledTokens_le_capacity capacity refill_rate now bucket
  unfold tokenBucket
  by_cases hc : cost ≤ refilledTokens capacity refill_rate now bucket
  · rw [if_pos hc]
    refine ⟨?_, rfl⟩
    intro t ht
    have hit : t = refilledTokens capacity refill_rate now bucket - cost := by
      simpa using ht.symm
    subst hit
    constructor
    · linarith
    · linarith
  · rw [if_neg hc]
    exact ⟨fun t ht => by simp at ht, rfl⟩

/-- Witness for C5 at `capacity = 5`, `refill_rate = 1`, `cost = 2`,
`now = 10`, stored bucket `(3, 9)`. -/
theorem tokenBucket_invariant_witness :
    (0 : ℚ) < 5 ∧ (2 : ℚ) ≤ 5 ∧
    ((∀ t, (tokenBucket 5 1 2 10 (some (3, 9))).write.tokensWritten = some t →
        0 ≤ t ∧ t ≤ 5) ∧
      (tokenBucket 5 1 2 10 (some (3, 9))).write.lastRefillWritten = some 10) :=
  ⟨by norm_num, by norm_num,
   tokenBucket_invariant 5 1 2 10 (some (3, 9)) (by norm_num) (by norm_num) (by norm_num)
     (by norm_num) (by intro t lr h; injection h with h1; injection h1 with h2 h3; subst h2; constructor <;> norm_num)⟩

/-- C6: the first execution for a brand-new principal with integer
`capacity ≥ cost ≥ 1` allows the request, reports
`remaining = capacity - cost`, and persists `tokens = capacity - cost`
with `last_refill = now`. -/
theorem tokenBucket_fresh (c k : ℕ) (refill_rate : ℚ) (now : ℤ)
    (_h1 : 1 ≤ k) (h2 : k ≤ c) :
    (tokenBucket (c : ℚ) refill_rate (k : ℚ) now none).reply.allowed = 1 ∧
    (tokenBucket (c : ℚ) refill_rate (k : ℚ) now none).reply.remaining = (c : ℤ) - (k : ℤ) ∧
    (tokenBucket (c : ℚ) refill_rate (k : ℚ) now none).write.tokensWritten =
      some ((c : ℚ) - (k : ℚ)) ∧
    (tokenBucket (c : ℚ) refill_rate (k : ℚ) now none).write.lastRefillWritten = some now := by
  have hre : refilledTokens (c : ℚ) refill_rate now none = (c : ℚ) := by
    simp [refilledTokens]
  have hk : (k : ℚ) ≤ (c : ℚ) := by exact_mod_cast h2
  simp only [tokenBucket, hre]
  rw [if_pos hk]
  refine ⟨rfl, ?_, rfl, rfl⟩
  have h3 : (c : ℚ) - (k : ℚ) = (((c : ℤ) - (k : ℤ) : ℤ) : ℚ) := by push_cast; ring
  show ⌊(c : ℚ) - (k : ℚ)⌋ = (c : ℤ) - (k : ℤ)
  rw [h3, Int.floor_intCast]

/-- Witness for C6 at `capacity = 5`, `cost = 1`, `refill_rate = 1`,
`now = 42`. -/
theorem tokenBucket_fresh_witness :
    1 ≤ 1 ∧ 1 ≤ 5 ∧
    ((tokenBucket ((5 : ℕ) : ℚ) 1 ((1 : ℕ) : ℚ) 42 none).reply.allowed = 1 ∧
      (tokenBucket ((5 : ℕ) : ℚ) 1 ((1 : ℕ) : ℚ) 42 none).reply.remaining =
        ((5 : ℕ) : ℤ) - ((1 : ℕ) : ℤ) ∧
      (tokenBucket ((5 : ℕ) : ℚ) 1 ((1 : ℕ) : ℚ) 42 none).write.tokensWritten =
        some (((5 : ℕ) : ℚ) - ((1 : ℕ) : ℚ)) ∧
      (tokenBucket ((5 : ℕ) : ℚ) 1 ((1 : ℕ) : ℚ) 42 none).write.lastRefillWritten = some 42) :=
  ⟨le_refl 1, by norm_num, tokenBucket_fresh 5 1 1 42 (by norm_num) (by norm_num)⟩

set_option maxRecDepth 400000 in
/-- The embedded SHA-256 agrees with the FIPS 180-4 test vector for
`"abc"`, pinning down the digest the identifier truncates. -/
theorem sha256hex_abc :
    sha256hex "abc" = "ba7816bf8f01cfea414140de5dae2223b00361a396177a9cb410ff61f20015ad" := by
  rfl

/-- C7: `identifyClient` is a total function of the request following
the precedence apikey > user > ip — an available API key yields
`apikey:` plus the first 16 hex characters of its SHA-256, else a
truthy authenticated id yields `user:<id>`, else `ip:` plus the
extracted address — and equal requests yield equal principals. -/
theorem identifyClient_precedence (req : Request) :
    (∀ apiKey, apiKeyOf req = some apiKey →
      identifyClient req = "apikey:" ++ (sha256hex apiKey).take 16) ∧
    (apiKeyOf req = none → ∀ uid, userIdOf req = some uid →
      identifyClient req = "user:" ++ uid) ∧
    (apiKeyOf req = none → userIdOf req = none →
      identifyClient req = "ip:" ++ extractClientIP req) ∧
    (∀ req2 : Request, req = req2 → identifyClient req = identifyClient req2) := by
  refine ⟨?_, ?_, ?_, ?_⟩
  · intro apiKey h
    simp [identifyClient, h, hashApiKey]
  · intro h uid h2
    simp [identifyClient, h, h2]
  · intro h h2
    simp [identifyClient, h, h2]
  · rintro req2 rfl
    rfl

/-- Witness for C7: the header `X-API-Key: secret123` wins over an
authenticated user and an address. -/
theorem identifyClient_precedence_witness :
    apiKeyOf { headerApiKey := some "secret123", user := some { id := some "u1" },
               ip := some "10.0.0.9" } = some "secret123" ∧
    identifyClient { headerApiKey := some "secret123", user := some { id := some "u1" },
                     ip := some "10.0.0.9" } =
      "apikey:" ++ (sha256hex "secret123").take 16 :=
  ⟨rfl,
   (identifyClient_precedence
       { headerApiKey := some "secret123", user := some { id := some "u1" },
         ip := some "10.0.0.9" }).1 "secret123" rfl⟩

/-- C3 (violated by the code): with proxy trust disabled, the principal
of an ip-identified request still depends on the client-supplied
`X-Forwarded-For` header — `extractClientIP` consults the header
unconditionally (the `trustProxy` configuration only reaches the
framework's `req.ip`), so two requests identical except for that header
get different principals. -/
theorem identifyClient_depends_on_forwarded_header :
    identifyClient { headerForwardedFor := some "1.2.3.4", ip := some "203.0.113.7" } =
      "ip:1.2.3.4" ∧
    identifyClient { ip := some "203.0.113.7" } = "ip:203.0.113.7" ∧
    identifyClient { headerForwardedFor := some "1.2.3.4", ip := some "203.0.113.7" } ≠
      identifyClient { ip := some "203.0.113.7" } := by
  refine ⟨by decide, by decide, by decide⟩

/-- C8 (violated by the code): a falsy capacity override — `0` here,
and likewise `NaN` — is not rejected at construction: the `options.x ||
default` idiom silently replaces it with the config default and
`rateLimiter` returns a middleware instead of throwing. -/
theorem rateLimiterInit_falsy_override_accepted :
    rateLimiterInit { capacity := some (.num 0) } 100 1 1 = .ok (100, 1, 1) ∧
    rateLimiterInit { capacity := some .nan } 100 1 1 = .ok (100, 1, 1) := by
  refine ⟨rfl, rfl⟩

/-- C8 as amended: construction throws exactly when an effective
setting — the override when truthy, else the config default — fails the
strict `number`/finite/positive validation, or the effective capacity is
below the effective cost; a falsy override is replaced by the default
rather than rejected. -/
theorem rateLimiterInit_error_characterization
    (options : RateLimiterOptions) (capDflt rateDflt costDflt : ℚ) :
    (∀ (v : JSVal) (d : ℚ), v.truthy = false → jsOr (some v) d = JSVal.num d) ∧
    ((∃ msg, rateLimiterInit options capDflt rateDflt costDflt = .error msg) ↔
      (invalidSetting (jsOr options.capacity capDflt) = true ∨
        invalidSetting (jsOr options.refillRate rateDflt) = true ∨
        invalidSetting (jsOr options.cost costDflt) = true ∨
        (jsOr options.capacity capDflt).jsLt (jsOr options.cost costDflt) = true)) := by
  constructor
  · intro v d h
    simp [jsOr, h]
  · simp only [rateLimiterInit]
    split_ifs with h1 h2 h3 h4 <;> simp_all

/-- Witness for C8 as amended, at the override `capacity = 0` with the
config defaults `(100, 1, 1)`. -/
theorem rateLimiterInit_error_characterization_witness :
    JSVal.truthy (.num 0) = false ∧ jsOr (some (.num 0)) 100 = JSVal.num 100 :=
  ⟨by decide,
   (rateLimiterInit_error_characterization { capacity := some (.num 0) } 100 1 1).1
     (.num 0) 100 (by decide)⟩

/-- C1: a principal whose ban was installed at `t` (so that it expires
at `t + ban_duration`) is short-circuited on every arrival in
`[t, t + ban_duration)`: the store is never consulted, the response is
429 with `Retry-After` and `X-Ban-Remaining` equal to the seconds
remaining on the ban, an `X-Threat-Level: BANNED` header, and reported
remaining 0 — whatever the store would have replied. -/
theorem banned_principal_short_circuited
    (capacity : ℚ) (clientId : String) (t a : ℤ) (elapsedMs : ℚ)
    (store : StoreBehavior) (M : MetricsState)
    (hban : M.bans.lookup clientId = some (t + banDurationMs))
    (_h1 : t ≤ a) (h2 : a < t + banDurationMs) :
    (handleRequest capacity clientId a elapsedMs store M).1.status = 429 ∧
    (handleRequest capacity clientId a elapsedMs store M).1.nextCalled = false ∧
    (handleRequest capacity clientId a elapsedMs store M).1.storeConsulted = false ∧
    (handleRequest capacity clientId a elapsedMs store M).1.retryAfter =
      some ⌈((t + banDurationMs - a : ℤ) : ℚ) / 1000⌉ ∧
    (handleRequest capacity clientId a elapsedMs store M).1.xBanRemaining =
      some ⌈((t + banDurationMs - a : ℤ) : ℚ) / 1000⌉ ∧
    (handleRequest capacity clientId a elapsedMs store M).1.xThreatLevel = some "BANNED" ∧
    (handleRequest capacity clientId a elapsedMs store M).1.xRateLimitRemaining = some 0 ∧
    (handleRequest capacity clientId a elapsedMs store M).1.bodyRemaining = some 0 := by
  have hbans : (trackClient M clientId).bans = M.bans := rfl
  have hb : isClientBanned (trackClient M clientId) clientId a = true := by
    simp [isClientBanned, hbans, hban, h2]
  have hr : getBanTimeRemaining (trackClient M clientId) clientId a =
      ⌈((t + banDurationMs - a : ℤ) : ℚ) / 1000⌉ := by
    simp [getBanTimeRemaining, hbans, hban]
  simp [handleRequest, hb, hr]

/-- Witness for C1: a principal banned at `t = 0` arriving at
`a = 1000` ms is short-circuited (ban record expires at 600000 ms). -/
theorem banned_principal_short_circuited_witness :
    (MetricsState.bans { initialMetrics with bans := [("ip:9.9.9.9", 600000)] }).lookup
        "ip:9.9.9.9" = some (0 + banDurationMs) ∧
    (0 : ℤ) ≤ 1000 ∧ (1000 : ℤ) < 0 + banDurationMs ∧
    ((handleRequest 100 "ip:9.9.9.9" 1000 0 .unavailable
        { initialMetrics with bans := [("ip:9.9.9.9", 600000)] }).1.status = 429 ∧
      (handleRequest 100 "ip:9.9.9.9" 1000 0 .unavailable
        { initialMetrics with bans := [("ip:9.9.9.9", 600000)] }).1.nextCalled = false ∧
      (handleRequest 100 "ip:9.9.9.9" 1000 0 .unavailable
        { initialMetrics with bans := [("ip:9.9.9.9", 600000)] }).1.storeConsulted = false ∧
      (handleRequest 100 "ip:9.9.9.9" 1000 0 .unavailable
        { initialMetrics with bans := [("ip:9.9.9.9", 600000)] }).1.retryAfter =
        some ⌈((0 + banDurationMs - 1000 : ℤ) : ℚ) / 1000⌉ ∧
      (handleRequest 100 "ip:9.9.9.9" 1000 0 .unavailable
        { initialMetrics with bans := [("ip:9.9.9.9", 600000)] }).1.xBanRemaining =
        some ⌈((0 + banDurationMs - 1000 : ℤ) : ℚ) / 1000⌉ ∧
      (handleRequest 100 "ip:9.9.9.9" 1000 0 .unavailable
        { initialMetrics with bans := [("ip:9.9.9.9", 600000)] }).1.xThreatLevel =
        some "BANNED" ∧
      (handleRequest 100 "ip:9.9.9.9" 1000 0 .unavailable
        { initialMetrics with bans := [("ip:9.9.9.9", 600000)] }).1.xRateLimitRemaining =
        some 0 ∧
      (handleRequest 100 "ip:9.9.9.9" 1000 0 .unavailable
        { initialMetrics with bans := [("ip:9.9.9.9", 600000)] }).1.bodyRemaining = some 0) :=
  ⟨by decide, by decide, by decide,
   banned_principal_short_circuited 100 "ip:9.9.9.9" 0 1000 0 .unavailable
     { initialMetrics with bans := [("ip:9.9.9.9", 600000)] }
     (by decide) (by decide) (by decide)⟩

/-- C2 (violated by the code): an exception inside the middleware body
— the path a command timeout or a script error takes — still admits the
request, but increments `redis_errors` rather than `fail_open_events`
and emits an error-severity `rate_limit_error` event, not the
`rate_limit_fail_open` audit event the claim requires. -/
theorem exception_path_not_counted_as_fail_open :
    (handleRequest 100 "ip:9.9.9.9" 0 0 .throws initialMetrics).2.failOpenEvents = 0 ∧
    (handleRequest 100 "ip:9.9.9.9" 0 0 .throws initialMetrics).2.redisErrors = 1 ∧
    (handleRequest 100 "ip:9.9.9.9" 0 0 .throws initialMetrics).1.nextCalled = true ∧
    (handleRequest 100 "ip:9.9.9.9" 0 0 .throws initialMetrics).1.events =
      [.errorEvent "rate_limit_error"] := by
  refine ⟨rfl, rfl, rfl, rfl⟩

/-- C2 as amended: the request is admitted on every no-verdict path,
but the two paths are booked differently — a missing store client
increments `fail_open_events` by one and emits the warn-severity
`rate_limit_fail_open` event, while any exception inside the body
(timeout, script error, unexpected exception) increments `redis_errors`,
leaves `fail_open_events` unchanged, and emits the error-severity
`rate_limit_error` event. -/
theorem fail_open_paths
    (capacity : ℚ) (clientId : String) (nowMs : ℤ) (elapsedMs : ℚ) (M : MetricsState)
    (hnotban : isClientBanned (trackClient M clientId) clientId nowMs = false) :
    ((handleRequest capacity clientId nowMs elapsedMs .unavailable M).1.nextCalled = true ∧
      (handleRequest capacity clientId nowMs elapsedMs .unavailable M).2.failOpenEvents =
        M.failOpenEvents + 1 ∧
      (handleRequest capacity clientId nowMs elapsedMs .unavailable M).2.redisErrors =
        M.redisErrors ∧
      (handleRequest capacity clientId nowMs elapsedMs .unavailable M).1.events =
        [.warnEvent "rate_limit_fail_open"]) ∧
    ((handleRequest capacity clientId nowMs elapsedMs .throws M).1.nextCalled = true ∧
      (handleRequest capacity clientId nowMs elapsedMs .throws M).2.redisErrors =
        M.redisErrors + 1 ∧
      (handleRequest capacity clientId nowMs elapsedMs .throws M).2.failOpenEvents =
        M.failOpenEvents ∧
      (handleRequest capacity clientId nowMs elapsedMs .throws M).1.events =
        [.errorEvent "rate_limit_error"]) := by
  simp only [handleRequest]
  rw [hnotban]
  simp [incrementFailOpen, incrementRedisError, trackClient]

/-- Witness for C2 as amended, from the initial metrics state. -/
theorem fail_open_paths_witness :
    isClientBanned (trackClient initialMetrics "ip:9.9.9.9") "ip:9.9.9.9" 0 = false ∧
    (handleRequest 100 "ip:9.9.9.9" 0 0 .unavailable initialMetrics).2.failOpenEvents =
      initialMetrics.failOpenEvents + 1 ∧
    (handleRequest 100 "ip:9.9.9.9" 0 0 .throws initialMetrics).2.redisErrors =
      initialMetrics.redisErrors + 1 :=
  ⟨by decide,
   ((fail_open_paths 100 "ip:9.9.9.9" 0 0 initialMetrics (by decide)).1.2.1),
   ((fail_open_paths 100 "ip:9.9.9.9" 0 0 initialMetrics (by decide)).2.2.1)⟩

/-- A fail-open request (missing client or exception) changes neither
decided-traffic counter nor the ban index. -/
theorem handleRequest_failopen_counters
    (capacity : ℚ) (clientId : String) (nowMs : ℤ) (elapsedMs : ℚ)
    (store : StoreBehavior) (M : MetricsState)
    (hstore : store = StoreBehavior.unavailable ∨ store = StoreBehavior.throws)
    (hban : M.bans.lookup clientId = none) :
    (handleRequest capacity clientId nowMs elapsedMs store M).2.requestsAllowed =
      M.requestsAllowed ∧
    (handleRequest capacity clientId nowMs elapsedMs store M).2.requestsBlocked =
      M.requestsBlocked ∧
    (handleRequest capacity clientId nowMs elapsedMs store M).2.bans = M.bans := by
  have hnb : isClientBanned (trackClient M clientId) clientId nowMs = false := by
    simp [isClientBanned, trackClient, hban]
  rcases hstore with h | h <;> subst h <;>
    (simp only [handleRequest]; rw [hnb];
     simp [incrementFailOpen, incrementRedisError, trackClient])

/-- Running only fail-open steps keeps the decided-traffic counters at
zero and the ban index empty. -/
theorem runRequests_failopen_invariant (capacity : ℚ)
    (steps : List (String × ℤ × StoreBehavior)) :
    ∀ M : MetricsState,
      (∀ s ∈ steps, s.2.2 = StoreBehavior.unavailable ∨ s.2.2 = StoreBehavior.throws) →
      M.requestsAllowed = 0 → M.requestsBlocked = 0 → M.bans = [] →
      (runRequests capacity steps M).requestsAllowed = 0 ∧
      (runRequests capacity steps M).requestsBlocked = 0 ∧
      (runRequests capacity steps M).bans = [] := by
  induction steps with
  | nil =>
      intro M _ h1 h2 h3
      exact ⟨h1, h2, h3⟩
  | cons s rest ih =>
      intro M hs h1 h2 h3
      have hstep := handleRequest_failopen_counters capacity s.1 s.2.1 0 s.2.2 M
        (hs s (List.mem_cons_self s rest)) (by rw [h3]; rfl)
      have hrw : runRequests capacity (s :: rest) M =
          runRequests capacity rest (handleRequest capacity s.1 s.2.1 0 s.2.2 M).2 := rfl
      rw [hrw]
      exact ih _ (fun x hx => hs x (List.mem_cons_of_mem s hx))
        (by rw [hstep.1, h1]) (by rw [hstep.2.1, h2]) (by rw [hstep.2.2, h3])

/-- C9: with no decided traffic, `getSystemHealthScore` is 100 whatever
`redisErrors` and `failOpenEvents` hold; and since fail-open admissions
increment neither `requestsAllowed` nor `requestsBlocked`, a process
that has only ever failed open reports a perfect health score. -/
theorem health_score_blind_to_pure_fail_open
    (M : MetricsState) (capacity : ℚ) (steps : List (String × ℤ × StoreBehavior))
    (hM : M.requestsAllowed + M.requestsBlocked = 0)
    (hsteps : ∀ s ∈ steps, s.2.2 = StoreBehavior.unavailable ∨ s.2.2 = StoreBehavior.throws) :
    getSystemHealthScore M = 100 ∧
    getSystemHealthScore (runRequests capacity steps initialMetrics) = 100 := by
  constructor
  · simp [getSystemHealthScore, hM]
  · obtain ⟨h1, h2, -⟩ :=
      runRequests_failopen_invariant capacity steps initialMetrics hsteps rfl rfl rfl
    simp [getSystemHealthScore, h1, h2]

/-- Witness for C9: three redis errors and seven fail-open events with
no decided traffic, and a two-request all-fail-open run. -/
theorem health_score_blind_to_pure_fail_open_witness :
    (MetricsState.requestsAllowed
        { initialMetrics with redisErrors := 3, failOpenEvents := 7 } +
      MetricsState.requestsBlocked
        { initialMetrics with redisErrors := 3, failOpenEvents := 7 } = 0) ∧
    (getSystemHealthScore { initialMetrics with redisErrors := 3, failOpenEvents := 7 } = 100 ∧
      getSystemHealthScore (runRequests 100
        [("ip:1.1.1.1", 0, StoreBehavior.unavailable), ("ip:2.2.2.2", 5, StoreBehavior.throws)]
        initialMetrics) = 100) :=
  ⟨rfl,
   health_score_blind_to_pure_fail_open
     { initialMetrics with redisErrors := 3, failOpenEvents := 7 } 100
     [("ip:1.1.1.1", 0, StoreBehavior.unavailable), ("ip:2.2.2.2", 5, StoreBehavior.throws)]
     rfl (by decide)⟩

/-- Membership in a set-list survives `setInsert`. -/
theorem mem_setInsert_of_mem (s : List String) (x c : String) (h : c ∈ s) :
    c ∈ setInsert s x := by
  unfold setInsert
  split
  · exact h
  · exact List.mem_cons_of_mem x h

/-- `setInsert` puts its element in the set-list. -/
theorem mem_setInsert_self (s : List String) (x : String) : x ∈ setInsert s x := by
  unfold setInsert
  split
  · assumption
  · exact List.mem_cons_self x s

/-- C10: once a client id is in `maliciousClients` — via the violation
tracker reaching its threshold inside the window, or via a malicious
block — no metrics operation other than the test-only `reset` ever
removes it: every mutator preserves membership, and
`cleanupViolationTracker` touches only the violation records. -/
theorem maliciousClients_never_removed :
    (∀ (op : MetricsOp) (M : MetricsState) (c : String),
      op ≠ MetricsOp.resetOp → c ∈ M.maliciousClients →
      c ∈ (applyOp op M).maliciousClients) ∧
    (∀ (M : MetricsState) (c : String) (now : ℤ) (vr : ViolationRecord),
      M.violationTracker.lookup c = some vr →
      now - vr.firstViolation < VIOLATION_WINDOW_MS →
      MALICIOUS_THRESHOLD ≤ vr.count + 1 →
      c ∈ (trackViolation M c now).2.maliciousClients) ∧
    (∀ (M : MetricsState) (c : String),
      c ∈ (incrementBlocked M (some c) true).maliciousClients) ∧
    (∀ (M : MetricsState) (now : ℤ),
      (cleanupViolationTracker M now).maliciousClients = M.maliciousClients) := by
  refine ⟨?_, ?_, ?_, ?_⟩
  · intro op M c hne hc
    cases op with
    | incAllowed => simpa [applyOp, incrementAllowed] using hc
    | incBlocked cid mal =>
        cases mal with
        | false => simpa [applyOp, incrementBlocked] using hc
        | true =>
            cases cid with
            | none => simpa [applyOp, incrementBlocked] using hc
            | some cid => simpa [applyOp, incrementBlocked] using mem_setInsert_of_mem _ _ _ hc
    | trackViol cid now =>
        cases h : M.violationTracker.lookup cid with
        | none => simpa [applyOp, trackViolation, h] using hc
        | some vr =>
            simp only [applyOp, trackViolation, h]
            split_ifs <;>
              first
                | simpa using mem_setInsert_of_mem _ _ _ hc
                | simpa using hc
    | incRedisError => simpa [applyOp, incrementRedisError] using hc
    | incFailOpen => simpa [applyOp, incrementFailOpen] using hc
    | recordTime t => simpa [applyOp, recordResponseTime] using hc
    | trackCl cid => simpa [applyOp, trackClient] using hc
    | cleanup now => simpa [applyOp, cleanupViolationTracker] using hc
    | resetOp => exact absurd rfl hne
  · intro M c now vr h hwin hth
    simp only [trackViolation, h]
    rw [if_pos hwin, if_pos hth]
    exact mem_setInsert_self _ _
  · intro M c
    simpa [incrementBlocked] using mem_setInsert_self M.maliciousClients c
  · intro M now
    rfl

/-- Witness for C10: a flagged client survives the periodic cleanup and
the window-expiry reset of its violation record. -/
theorem maliciousClients_never_removed_witness :
    MetricsOp.cleanup 200000 ≠ MetricsOp.resetOp ∧
    "ip:6.6.6.6" ∈
      (MetricsState.maliciousClients
        { initialMetrics with maliciousClients := ["ip:6.6.6.6"] }) ∧
    "ip:6.6.6.6" ∈
      (applyOp (MetricsOp.cleanup 200000)
        { initialMetrics with maliciousClients := ["ip:6.6.6.6"] }).maliciousClients :=
  ⟨by decide, by decide,
   maliciousClients_never_removed.1 (MetricsOp.cleanup 200000)
     { initialMetrics with maliciousClients := ["ip:6.6.6.6"] } "ip:6.6.6.6"
     (by decide) (by decide)⟩

end Atlas
